import Mathlib

/-!
Shallow embedding of the pomodoro backend (Encore.ts + PostgreSQL) core:
the session recorder (`complete_session.ts`), the statistics engine
(`getStatistics`), and the settings / task / note accessors.

Modelling conventions:
* Timestamps are integers (minutes on an abstract timeline); PostgreSQL
  `DATE(completed_at)` becomes flooring division by the number of minutes
  in a day, and `NOW() - INTERVAL 'k days'` becomes `now - k * 1440`.
* Database tables are Lean lists of row structures; `BIGSERIAL` ids are
  modelled by explicit `next…Id` counters on the database state.
* `session_type` is kept as a `String`, because the `pomodoro_sessions`
  table constrains it only by a CHECK constraint, and requests may carry
  arbitrary strings; the CHECK and the foreign-key constraint on
  `task_id` are part of the insert's success condition.
* Store-level failures (the transaction aborting on the insert or on the
  task update) are an explicit oracle `StoreFailure` passed to
  `completeSession`; the code's `try`/`rollback` structure then decides
  what state survives.
* JavaScript truthiness of `req.taskId` (`req.taskId || null`, and the
  `if (req.sessionType === 'work' && req.taskId)` guard) is modelled by
  `normTaskId`, which maps `some 0` to `none`.
-/

namespace Pomodoro

abbrev Timestamp := Int

def minutesPerDay : Int := 1440

/-- `DATE(t)`: the calendar day containing the timestamp `t`. -/
def dayOf (t : Timestamp) : Int := Int.fdiv t minutesPerDay

/-- A row of the `pomodoro_sessions` table. -/
structure SessionRow where
  id : Int
  taskId : Option Int
  sessionType : String
  durationMinutes : Int
  completedAt : Timestamp
deriving Repr, DecidableEq

/-- A row of the `tasks` table. -/
structure TaskRow where
  id : Int
  title : String
  description : Option String
  estimatedPomodoros : Int
  completedPomodoros : Int
  isCompleted : Bool
  createdAt : Timestamp
  updatedAt : Timestamp
deriving Repr, DecidableEq

/-- A row of the `user_settings` table. -/
structure SettingsRow where
  id : Int
  workDuration : Int
  shortBreakDuration : Int
  longBreakDuration : Int
  sessionsUntilLongBreak : Int
  createdAt : Timestamp
  updatedAt : Timestamp
deriving Repr, DecidableEq

/-- A row of the `notes` table. -/
structure NoteRow where
  id : Int
  title : String
  content : String
  noteType : String
  createdAt : Timestamp
  updatedAt : Timestamp
deriving Repr, DecidableEq

/-- The persistent store: the four tables plus the serial-id counters. -/
structure DB where
  tasks : List TaskRow
  sessions : List SessionRow
  userSettings : List SettingsRow
  notes : List NoteRow
  nextSessionId : Int
  nextSettingsId : Int
deriving Repr, DecidableEq

/-- Errors surfaced by the API layer: `APIError.invalidArgument`,
`APIError.notFound`, and plain `throw new Error(msg)` (a 500). -/
inductive ApiError where
  | invalidArgument (msg : String)
  | notFound (msg : String)
  | internal (msg : String)
deriving Repr, DecidableEq

/-- The `CHECK (session_type IN ('work','short_break','long_break'))`
constraint of the `pomodoro_sessions` table. -/
def validSessionType (s : String) : Bool :=
  s = "work" || s = "short_break" || s = "long_break"

/-- Request body of `POST /sessions`. -/
structure CompleteSessionRequest where
  taskId : Option Int
  sessionType : String
  durationMinutes : Int
deriving Repr, DecidableEq

/-- `req.taskId || null`: JavaScript truthiness drops both `undefined`
and `0`. -/
def normTaskId : Option Int → Option Int
  | some i => if i = 0 then none else some i
  | none => none

def taskIdExists (db : DB) (i : Int) : Bool :=
  db.tasks.any (fun t => t.id = i)

/-- Success condition of the session insert: the CHECK constraint on
`session_type` and the foreign key `task_id REFERENCES tasks(id)`. -/
def insertOk (db : DB) (tid : Option Int) (stype : String) : Bool :=
  validSessionType stype &&
    (match tid with
     | none => true
     | some i => taskIdExists db i)

/-- `UPDATE tasks SET completed_pomodoros = completed_pomodoros + 1,
updated_at = NOW() WHERE id = …` applied to one row. -/
def bumpTask (now : Timestamp) (t : TaskRow) : TaskRow :=
  { t with completedPomodoros := t.completedPomodoros + 1, updatedAt := now }

/-- Oracle for store-level transaction failures inside `completeSession`:
whether the session insert errors, and whether the task update errors. -/
structure StoreFailure where
  insertFails : Bool
  updateFails : Bool
deriving Repr, DecidableEq

/-- `completeSession` (`POST /sessions`, `complete_session.ts`).

The handler opens a transaction, inserts the session row, conditionally
increments the referenced task's `completed_pomodoros`, and commits; on
any error it rolls back and rethrows.  The handler's `return` statement,
however, sits inside the `.then` callback, so its value is discarded by
the outer function, which then unconditionally executes
`throw new Error("Transaction failed")` — even after a successful commit.
The pair returned here is (database state after the call, outcome). -/
def completeSession (db : DB) (now : Timestamp) (req : CompleteSessionRequest)
    (f : StoreFailure) : DB × Except ApiError SessionRow :=
  let tid := normTaskId req.taskId
  if f.insertFails || !(insertOk db tid req.sessionType) then
    -- insert throws; catch block rolls back and rethrows
    (db, .error (.internal "insert failed"))
  else
    let row : SessionRow :=
      { id := db.nextSessionId, taskId := tid, sessionType := req.sessionType,
        durationMinutes := req.durationMinutes, completedAt := now }
    let needsUpdate := req.sessionType = "work" && tid.isSome
    if needsUpdate && f.updateFails then
      -- update throws; catch block rolls back and rethrows
      (db, .error (.internal "update failed"))
    else
      let tasks' :=
        if needsUpdate then
          db.tasks.map (fun t =>
            if (match tid with | some i => t.id = i | none => false : Bool) then
              bumpTask now t
            else t)
        else db.tasks
      let db' := { db with
        sessions := db.sessions ++ [row],
        tasks := tasks',
        nextSessionId := db.nextSessionId + 1 }
      -- the transaction commits, then the handler's trailing
      -- `throw new Error("Transaction failed")` runs unconditionally
      (db', .error (.internal "Transaction failed"))

/-! ### Statistics engine (`getStatistics`, `GET /statistics`) -/

def isBreakType (s : String) : Bool :=
  s = "short_break" || s = "long_break"

/-- `completed_at >= NOW() - INTERVAL '30 days'`. -/
def window30 (now : Timestamp) (s : SessionRow) : Bool :=
  now - 30 * minutesPerDay ≤ s.completedAt

/-- `completed_at >= NOW() - INTERVAL '365 days'`. -/
def window365 (now : Timestamp) (s : SessionRow) : Bool :=
  now - 365 * minutesPerDay ≤ s.completedAt

/-- Insert a day into a strictly descending duplicate-free list, keeping
it strictly descending and duplicate-free. -/
def insertDescDistinct (d : Int) : List Int → List Int
  | [] => [d]
  | x :: xs =>
    if x < d then d :: x :: xs
    else if x = d then x :: xs
    else x :: insertDescDistinct d xs

/-- `SELECT DISTINCT DATE(completed_at) … ORDER BY session_date DESC`. -/
def sortedDistinctDesc (l : List Int) : List Int :=
  l.foldr insertDescDistinct []

/-- The streak loop of `getStatistics`: starting at index `i`, count
list entries while entry `i` equals `today - i`, stopping at the first
mismatch. -/
def streakFrom (today : Int) : Nat → List Int → Nat
  | _, [] => 0
  | i, d :: ds =>
    if d = today - (i : Int) then streakFrom today (i + 1) ds + 1 else 0

/-- `Math.round`: round half toward positive infinity. -/
def jsRound (x : ℚ) : Int := ⌊x + 1 / 2⌋

/-- The `Statistics` response shape. -/
structure Statistics where
  totalSessions : Int
  totalWorkSessions : Int
  totalBreakSessions : Int
  totalMinutes : Int
  completedTasks : Int
  averageSessionsPerDay : ℚ
  streakDays : Nat
deriving Repr, DecidableEq

/-- The distinct calendar days carrying at least one session in the
trailing 30-day window. -/
def windowDays (db : DB) (now : Timestamp) : List Int :=
  ((db.sessions.filter (window30 now)).map (fun s => dayOf s.completedAt)).dedup

/-- The per-day counts of the grouped subquery
`SELECT DATE(completed_at), COUNT(*) … GROUP BY DATE(completed_at)`. -/
def dailyCounts (db : DB) (now : Timestamp) : List Int :=
  (windowDays db now).map (fun d =>
    (((db.sessions.filter (window30 now)).filter
        (fun s => dayOf s.completedAt = d)).length : Int))

/-- `AVG(daily_count)` with `avg || 0`: NULL (empty grouped subquery)
becomes 0. -/
def avgDailyCount (db : DB) (now : Timestamp) : ℚ :=
  if (windowDays db now).length = 0 then 0
  else ((dailyCounts db now).sum : ℚ) / ((windowDays db now).length : ℚ)

/-- `SELECT DISTINCT DATE(completed_at) FROM pomodoro_sessions WHERE
completed_at >= NOW() - INTERVAL '365 days' ORDER BY session_date DESC`. -/
def streakDayList (db : DB) (now : Timestamp) : List Int :=
  sortedDistinctDesc
    ((db.sessions.filter (window365 now)).map (fun s => dayOf s.completedAt))

/-- `getStatistics` (`GET /statistics`): all fields are computed by
read-only queries over the current state; nothing is written. -/
def getStatistics (db : DB) (now : Timestamp) : Statistics :=
  { totalSessions := ((db.sessions.length : Int))
    totalWorkSessions := (((db.sessions.filter (fun s => s.sessionType = "work")).length : Int))
    totalBreakSessions := (((db.sessions.filter (fun s => isBreakType s.sessionType)).length : Int))
    totalMinutes := (db.sessions.map (fun s => s.durationMinutes)).sum
    completedTasks := (((db.tasks.filter (fun t => t.isCompleted)).length : Int))
    averageSessionsPerDay := (jsRound (avgDailyCount db now * 10) : ℚ) / 10
    streakDays := streakFrom (dayOf now) 0 (streakDayList db now) }

/-- The `GET /statistics` endpoint as a state transformer: every query
in the handler is a `SELECT`, so the database is returned unchanged. -/
def getStatisticsOp (db : DB) (now : Timestamp) : DB × Statistics :=
  (db, getStatistics db now)

/-! ### Settings accessors -/

/-- `SELECT * FROM user_settings ORDER BY id LIMIT 1`: the row with the
least id, if any. -/
def firstSettings (db : DB) : Option SettingsRow :=
  db.userSettings.foldl
    (fun acc r =>
      match acc with
      | none => some r
      | some b => if r.id < b.id then some r else some b)
    none

/-- The defaults row inserted by `getSettings` when the table is empty. -/
def defaultSettingsRow (id : Int) (now : Timestamp) : SettingsRow :=
  { id := id, workDuration := 25, shortBreakDuration := 5, longBreakDuration := 15,
    sessionsUntilLongBreak := 4, createdAt := now, updatedAt := now }

/-- `getSettings` (`GET /settings`, first definition in
`get_settings.ts`, lines 6–62): return the stored row, creating the
defaults row `(25, 5, 15, 4)` first when none exists. -/
def getSettings (db : DB) (now : Timestamp) : DB × Except ApiError SettingsRow :=
  match firstSettings db with
  | some r => (db, .ok r)
  | none =>
    let row := defaultSettingsRow db.nextSettingsId now
    ({ db with userSettings := db.userSettings ++ [row],
               nextSettingsId := db.nextSettingsId + 1 },
     .ok row)

/-- The second `getSettings` definition in `get_settings.ts`
(lines 69–98): same select, but it throws `"Settings not found"` instead
of creating the defaults row. -/
def getSettingsNoCreate (db : DB) : DB × Except ApiError SettingsRow :=
  match firstSettings db with
  | some r => (db, .ok r)
  | none => (db, .error (.internal "Settings not found"))

/-- Request body of `PUT /settings`; all four fields optional. -/
structure UpdateSettingsRequest where
  workDuration : Option Int
  shortBreakDuration : Option Int
  longBreakDuration : Option Int
  sessionsUntilLongBreak : Option Int
deriving Repr, DecidableEq

def UpdateSettingsRequest.isEmpty (req : UpdateSettingsRequest) : Bool :=
  req.workDuration.isNone && req.shortBreakDuration.isNone &&
    req.longBreakDuration.isNone && req.sessionsUntilLongBreak.isNone

/-- Apply the present fields of the patch to a settings row, stamping
`updated_at = NOW()`. -/
def applySettingsPatch (req : UpdateSettingsRequest) (now : Timestamp)
    (r : SettingsRow) : SettingsRow :=
  { r with
    workDuration := req.workDuration.getD r.workDuration,
    shortBreakDuration := req.shortBreakDuration.getD r.shortBreakDuration,
    longBreakDuration := req.longBreakDuration.getD r.longBreakDuration,
    sessionsUntilLongBreak := req.sessionsUntilLongBreak.getD r.sessionsUntilLongBreak,
    updatedAt := now }

/-- `updateSettings` (`PUT /settings`): with no fields present it only
re-reads the current row (no `UPDATE` is issued at all); otherwise it
updates the row selected by `ORDER BY id LIMIT 1`. -/
def updateSettings (db : DB) (now : Timestamp) (req : UpdateSettingsRequest) :
    DB × Except ApiError SettingsRow :=
  if req.isEmpty then
    match firstSettings db with
    | none => (db, .error (.internal "Settings not found"))
    | some r => (db, .ok r)
  else
    match firstSettings db with
    | none => (db, .error (.internal "Failed to update settings"))
    | some r =>
      let r' := applySettingsPatch req now r
      ({ db with userSettings :=
          db.userSettings.map (fun x => if x.id = r.id then r' else x) },
       .ok r')

/-! ### Task and note updates (empty-patch behaviour) -/

/-- Request body of `PUT /tasks/:id`. -/
structure UpdateTaskRequest where
  id : Int
  title : Option String
  description : Option String
  estimatedPomodoros : Option Int
  isCompleted : Option Bool
deriving Repr, DecidableEq

def UpdateTaskRequest.isEmpty (req : UpdateTaskRequest) : Bool :=
  req.title.isNone && req.description.isNone &&
    req.estimatedPomodoros.isNone && req.isCompleted.isNone

/-- Apply the present fields of a task patch (`req.description || null`
turns an empty string into NULL), stamping `updated_at = NOW()`. -/
def applyTaskPatch (req : UpdateTaskRequest) (now : Timestamp) (t : TaskRow) : TaskRow :=
  { t with
    title := req.title.getD t.title,
    description :=
      match req.description with
      | some d => if d = "" then none else some d
      | none => t.description,
    estimatedPomodoros := req.estimatedPomodoros.getD t.estimatedPomodoros,
    isCompleted := req.isCompleted.getD t.isCompleted,
    updatedAt := now }

/-- `updateTask` (`PUT /tasks/:id`): an empty patch is rejected with
`APIError.invalidArgument("No fields to update")` before any query. -/
def updateTask (db : DB) (now : Timestamp) (req : UpdateTaskRequest) :
    DB × Except ApiError TaskRow :=
  if req.isEmpty then
    (db, .error (.invalidArgument "No fields to update"))
  else
    match db.tasks.find? (fun t => t.id = req.id) with
    | none => (db, .error (.notFound "Task not found"))
    | some t =>
      let t' := applyTaskPatch req now t
      ({ db with tasks := db.tasks.map (fun x => if x.id = req.id then t' else x) },
       .ok t')

/-- Request body of `PUT /notes/:id`. -/
structure UpdateNoteRequest where
  id : Int
  title : Option String
  content : Option String
deriving Repr, DecidableEq

def UpdateNoteRequest.isEmpty (req : UpdateNoteRequest) : Bool :=
  req.title.isNone && req.content.isNone

def applyNotePatch (req : UpdateNoteRequest) (now : Timestamp) (n : NoteRow) : NoteRow :=
  { n with
    title := req.title.getD n.title,
    content := req.content.getD n.content,
    updatedAt := now }

/-- `updateNote` (`PUT /notes/:id`): an empty patch is rejected with
`APIError.invalidArgument("No fields to update")` before any query. -/
def updateNote (db : DB) (now : Timestamp) (req : UpdateNoteRequest) :
    DB × Except ApiError NoteRow :=
  if req.isEmpty then
    (db, .error (.invalidArgument "No fields to update"))
  else
    match db.notes.find? (fun n => n.id = req.id) with
    | none => (db, .error (.notFound "Note not found"))
    | some n =>
      let n' := applyNotePatch req now n
      ({ db with notes := db.notes.map (fun x => if x.id = req.id then n' else x) },
       .ok n')

/-! ### Spec-side definitions (for refinement comparison) -/

/-- Round half-up to one decimal place, after the spec's words
"Rounded to one decimal place (round-half-up)". -/
def specRoundHalfUpTo1 (x : ℚ) : ℚ := ((⌊x * 10 + 1 / 2⌋ : ℤ) : ℚ) / 10

/-- Follows the spec's words for `averageSessionsPerDay`: the mean of
per-calendar-day session counts taken only over the days with at least
one session in the trailing 30-day window (days with zero sessions are
excluded from the denominator), rounded half-up to one decimal place,
and 0 when no session falls in the window. -/
def specAverageSessionsPerDay (db : DB) (now : Timestamp) : ℚ :=
  if db.sessions.filter (window30 now) = [] then 0
  else
    specRoundHalfUpTo1
      ((((windowDays db now).map (fun d =>
          (((db.sessions.filter (window30 now)).filter
              (fun s => dayOf s.completedAt = d)).length : ℚ))).sum) /
        ((windowDays db now).length : ℚ))

/-- The state has a session whose completion day is `k` days before the
day containing `now`, within the trailing-365-day streak window. -/
def hasSessionOnDay (db : DB) (now : Timestamp) (k : Nat) : Prop :=
  ∃ s ∈ db.sessions, window365 now s = true ∧ dayOf s.completedAt = dayOf now - k

instance (db : DB) (now : Timestamp) (k : Nat) : Decidable (hasSessionOnDay db now k) :=
  List.decidableBEx _ db.sessions

/-! ### Concrete states used by counterexamples and witnesses -/

def noFailure : StoreFailure := ⟨false, false⟩

def exTask : TaskRow :=
  { id := 1, title := "write report", description := none, estimatedPomodoros := 4,
    completedPomodoros := 0, isCompleted := false, createdAt := 0, updatedAt := 0 }

def exDbEmpty : DB := ⟨[], [], [], [], 1, 1⟩

def exDbOneTask : DB := ⟨[exTask], [], [], [], 1, 1⟩

/-- A timestamp inside calendar day 100. -/
def exNow : Timestamp := 100 * 1440 + 600

/-- A work session completed on calendar day `d`. -/
def exSessionOnDay (i d : Int) : SessionRow :=
  { id := i, taskId := none, sessionType := "work", durationMinutes := 25,
    completedAt := d * 1440 + 10 }

/-- Sessions on days 100 (today), 99, 98 and 96 — none on day 97. -/
def exDbStreak : DB :=
  ⟨[], [exSessionOnDay 1 100, exSessionOnDay 2 99, exSessionOnDay 3 98,
        exSessionOnDay 4 96], [], [], 5, 1⟩

/-- Sessions on days 99 and 98 but none today (day 100). -/
def exDbNoToday : DB :=
  ⟨[], [exSessionOnDay 2 99, exSessionOnDay 3 98], [], [], 4, 1⟩

/-- Three sessions on day 95 and one on day 90; nothing else. -/
def exDbAvg : DB :=
  ⟨[], [exSessionOnDay 1 95, exSessionOnDay 2 95, exSessionOnDay 3 95,
        exSessionOnDay 4 90], [], [], 5, 1⟩

/-- A mixed history: two work sessions and one of each break type. -/
def exDbMixed : DB :=
  ⟨[], [⟨1, none, "work", 25, 1000⟩, ⟨2, none, "short_break", 5, 2000⟩,
        ⟨3, none, "work", 25, 3000⟩, ⟨4, none, "long_break", 15, 4000⟩],
   [], [], 5, 1⟩

def exSettingsRow : SettingsRow :=
  { id := 7, workDuration := 30, shortBreakDuration := 10, longBreakDuration := 20,
    sessionsUntilLongBreak := 3, createdAt := 0, updatedAt := 0 }

def exDbWithSettings : DB := ⟨[], [], [exSettingsRow], [], 1, 8⟩

def emptySettingsPatch : UpdateSettingsRequest := ⟨none, none, none, none⟩

/-! ## Theorems -/

theorem normTaskId_eq_some {o : Option Int} {i : Int} :
    normTaskId o = some i ↔ o = some i ∧ i ≠ 0 := by
  constructor
  · intro h
    cases o with
    | none => simp [normTaskId] at h
    | some j =>
      by_cases hj : j = 0
      · simp [normTaskId, hj] at h
      · simp only [normTaskId, if_neg hj] at h
        obtain rfl : j = i := Option.some_inj.mp h
        exact ⟨rfl, hj⟩
  · rintro ⟨rfl, hi⟩
    simp [normTaskId, hi]

theorem map_eq_self_of_mem {α : Type} {l : List α} {f : α → α}
    (h : ∀ a ∈ l, f a = a) : l.map f = l := by
  rw [List.map_congr_left h]
  exact List.map_id' l

/-- C1 (code bug): on the success path — session insert and task
increment both commit, no store failure — `completeSession` still
signals `"Transaction failed"` instead of returning the persisted
session: the handler's `return` value is swallowed by the `.then`
callback and the trailing `throw` always runs.  Here both writes commit
(the session row is in the state, the task counter is incremented), yet
the outcome is an error, contradicting the claim that the success path
returns the persisted session. -/
theorem completeSession_commits_then_signals_failure :
    (completeSession exDbOneTask exNow ⟨some 1, "work", 25⟩ noFailure).2
        = .error (.internal "Transaction failed")
      ∧ (completeSession exDbOneTask exNow ⟨some 1, "work", 25⟩ noFailure).1.sessions
        = [{ id := 1, taskId := some 1, sessionType := "work", durationMinutes := 25,
             completedAt := exNow }]
      ∧ (completeSession exDbOneTask exNow ⟨some 1, "work", 25⟩ noFailure).1.tasks.map
          TaskRow.completedPomodoros = [1] :=
  ⟨rfl, rfl, rfl⟩

/-- C2 (code bug): the claim says a `recordSession` call that signals
failure leaves no session row behind (so it never shows up in
`computeStatistics`).  Because the handler throws `"Transaction failed"`
after a successful commit, this call signals failure while the session
row persists and is counted by `getStatistics`, and the task's
`completedPomodoros` has changed. -/
theorem completeSession_failure_signal_yet_session_persists :
    (completeSession exDbOneTask exNow ⟨some 1, "work", 30⟩ noFailure).2
        = .error (.internal "Transaction failed")
      ∧ (getStatistics (completeSession exDbOneTask exNow ⟨some 1, "work", 30⟩ noFailure).1
          exNow).totalSessions = 1
      ∧ (getStatistics exDbOneTask exNow).totalSessions = 0
      ∧ (completeSession exDbOneTask exNow ⟨some 1, "work", 30⟩ noFailure).1.tasks.map
          TaskRow.completedPomodoros = [1]
      ∧ exDbOneTask.tasks.map TaskRow.completedPomodoros = [0] :=
  ⟨rfl, rfl, rfl, rfl, rfl⟩

/-- C7 (counterexample): the claim says a request whose
`durationMinutes` is not a positive integer fails with a validation
error and nothing persists.  `completeSession` performs no such check:
`durationMinutes = -5` is inserted and committed — a session row with
duration `-5` persists, and the outcome is the generic
`"Transaction failed"` error, not a validation error. -/
theorem completeSession_negative_duration_persists :
    (completeSession exDbEmpty exNow ⟨none, "work", -5⟩ noFailure).1.sessions
        = [{ id := 1, taskId := none, sessionType := "work", durationMinutes := -5,
             completedAt := exNow }]
      ∧ (completeSession exDbEmpty exNow ⟨none, "work", -5⟩ noFailure).2
        = .error (.internal "Transaction failed") :=
  ⟨rfl, rfl⟩

/-- C7 (amended): `completeSession` performs no input validation of its
own.  A `sessionType` outside the three known values is rejected only by
the database CHECK constraint during the insert, so the transaction
rolls back, nothing persists, and the error is a store error, never a
validation error.  Any `durationMinutes` — positive or not — is accepted
as given: with a valid `sessionType` and no `taskId`, a session row
carrying exactly the requested duration is committed. -/
theorem completeSession_no_validation (db : DB) (now : Timestamp)
    (req : CompleteSessionRequest) (f : StoreFailure) :
    (validSessionType req.sessionType = false →
        completeSession db now req f = (db, .error (.internal "insert failed")))
      ∧ (validSessionType req.sessionType = true → req.taskId = none →
          (completeSession db now req noFailure).1.sessions
            = db.sessions ++
                [{ id := db.nextSessionId, taskId := none,
                   sessionType := req.sessionType,
                   durationMinutes := req.durationMinutes, completedAt := now }]) := by
  constructor
  · intro h
    simp [completeSession, insertOk, h]
  · intro hv ht
    simp [completeSession, insertOk, normTaskId, noFailure, hv, ht]

/-- C7 (witness for the amended theorem): a request with the unknown
session type `"pause"` is rolled back with a store error, and a request
with duration `-3` commits a row with duration `-3`. -/
theorem completeSession_no_validation_witness :
    completeSession exDbEmpty exNow ⟨some 2, "pause", 10⟩ noFailure
        = (exDbEmpty, .error (.internal "insert failed"))
      ∧ (completeSession exDbEmpty exNow ⟨none, "short_break", -3⟩ noFailure).1.sessions
        = [{ id := 1, taskId := none, sessionType := "short_break",
             durationMinutes := -3, completedAt := exNow }] :=
  ⟨(completeSession_no_validation exDbEmpty exNow ⟨some 2, "pause", 10⟩ noFailure).1 rfl,
   by
    rw [(completeSession_no_validation exDbEmpty exNow
          ⟨none, "short_break", -3⟩ noFailure).2 rfl rfl]
    rfl⟩

/-- C3: for a `recordSession` call whose transaction commits (no store
failure), the referenced task's `completedPomodoros` is incremented by
exactly one precisely when `sessionType` is `"work"` and that task's id
is the provided `taskId`; in every other case — any break session, a
work session with no `taskId`, or a `taskId` matching no task — every
task row is left exactly as it was.  (Task ids are `BIGSERIAL`, hence
positive; if the insert's foreign key fails instead, the rollback also
leaves every task unchanged, which the right-hand side then equals.) -/
theorem completeSession_increment_iff_work_with_task (db : DB) (now : Timestamp)
    (req : CompleteSessionRequest)
    (hid : ∀ t ∈ db.tasks, 0 < t.id) :
    (completeSession db now req noFailure).1.tasks
      = db.tasks.map (fun t =>
          if req.sessionType = "work" ∧ req.taskId = some t.id then bumpTask now t
          else t) := by
  unfold completeSession
  dsimp only
  split
  next h =>
    -- the insert fails (CHECK or foreign-key violation): full rollback
    refine (map_eq_self_of_mem ?_).symm
    intro t ht
    rw [if_neg]
    rintro ⟨hw, hsome⟩
    have hpos : t.id ≠ 0 := by have := hid t ht; omega
    have htid : normTaskId req.taskId = some t.id := by
      rw [hsome]; simp [normTaskId, hpos]
    rw [htid] at h
    have hex : taskIdExists db t.id = true := by
      simp only [taskIdExists, List.any_eq_true, decide_eq_true_eq]
      exact ⟨t, ht, rfl⟩
    have hok : insertOk db (some t.id) req.sessionType = true := by
      simp [insertOk, hw, validSessionType, hex]
    rw [hok] at h
    simp [noFailure] at h
  next h =>
    split
    next h2 =>
      -- the update-failure branch is unreachable when the oracle says
      -- the update succeeds
      simp [noFailure] at h2
    next h2 =>
      -- the transaction commits
      dsimp only
      split
      next hup =>
        -- work session with a surviving task reference
        simp only [Bool.and_eq_true] at hup
        obtain ⟨hwd, hsome⟩ := hup
        have hw : req.sessionType = "work" := of_decide_eq_true hwd
        obtain ⟨i, hi⟩ := Option.isSome_iff_exists.mp hsome
        obtain ⟨hreq, hi0⟩ := normTaskId_eq_some.mp hi
        apply List.map_congr_left
        intro t _
        rw [hi]
        by_cases hti : t.id = i
        · rw [if_pos (by simp [hti]), if_pos ⟨hw, by rw [hreq, hti]⟩]
        · rw [if_neg (by simp [hti]), if_neg]
          rintro ⟨-, hsome'⟩
          rw [hreq] at hsome'
          exact hti (Option.some_inj.mp hsome').symm
      next hup =>
        -- break session, no task id, or truthiness-dropped task id 0
        refine (map_eq_self_of_mem ?_).symm
        intro t ht
        rw [if_neg]
        rintro ⟨hw, hsome⟩
        apply hup
        have hpos : t.id ≠ 0 := by have := hid t ht; omega
        have htid : normTaskId req.taskId = some t.id := by
          rw [hsome]; simp [normTaskId, hpos]
        simp [htid, hw]

/-- C3 (witness): a committing work session referencing task 1 bumps
exactly that task's counter. -/
theorem completeSession_increment_iff_work_with_task_witness :
    (∀ t ∈ exDbOneTask.tasks, 0 < t.id)
      ∧ (completeSession exDbOneTask exNow ⟨some 1, "work", 25⟩ noFailure).1.tasks
        = exDbOneTask.tasks.map (fun t =>
            if ("work" : String) = "work" ∧ (some 1 : Option Int) = some t.id then
              bumpTask exNow t
            else t) :=
  ⟨by decide,
   completeSession_increment_iff_work_with_task exDbOneTask exNow
     ⟨some 1, "work", 25⟩ (by decide)⟩

/-- C8: no task's `completedPomodoros` ever decreases across
`completeSession` — whatever the store-failure pattern, each task row is
either unchanged or incremented by exactly one, and it increases only
when the request is a work session referencing that task's id; and the
statistics endpoint is a pure read, returning the database unchanged. -/
theorem completeSession_completedPomodoros_monotone (db : DB) (now : Timestamp)
    (req : CompleteSessionRequest) (f : StoreFailure) :
    List.Forall₂ (fun t t' : TaskRow =>
        t.completedPomodoros ≤ t'.completedPomodoros ∧
          (t.completedPomodoros < t'.completedPomodoros →
            req.sessionType = "work" ∧ req.taskId = some t.id
              ∧ t' = bumpTask now t))
      db.tasks (completeSession db now req f).1.tasks
      ∧ (getStatisticsOp db now).1 = db := by
  refine ⟨?_, rfl⟩
  have hrefl : List.Forall₂ (fun t t' : TaskRow =>
      t.completedPomodoros ≤ t'.completedPomodoros ∧
        (t.completedPomodoros < t'.completedPomodoros →
          req.sessionType = "work" ∧ req.taskId = some t.id
            ∧ t' = bumpTask now t)) db.tasks db.tasks := by
    rw [List.forall₂_same]
    exact fun t _ => ⟨le_refl _, fun hlt => absurd hlt (lt_irrefl _)⟩
  unfold completeSession
  dsimp only
  split
  next => exact hrefl
  next =>
    split
    next => exact hrefl
    next =>
      dsimp only
      split
      next hup =>
        simp only [Bool.and_eq_true] at hup
        obtain ⟨hwd, hsome⟩ := hup
        have hw : req.sessionType = "work" := of_decide_eq_true hwd
        obtain ⟨i, hi⟩ := Option.isSome_iff_exists.mp hsome
        obtain ⟨hreq, -⟩ := normTaskId_eq_some.mp hi
        rw [List.forall₂_map_right_iff, List.forall₂_same]
        intro t _
        rw [hi]
        by_cases hti : t.id = i
        · rw [if_pos (by simp [hti])]
          exact ⟨by simp [bumpTask],
            fun _ => ⟨hw, by rw [hreq, hti], rfl⟩⟩
        · rw [if_neg (by simp [hti])]
          exact ⟨le_refl _, fun hlt => absurd hlt (lt_irrefl _)⟩
      next => exact hrefl

/-- C6: totals returned by `getStatistics`: `totalSessions` is the
number of stored sessions, `totalMinutes` the sum of their durations
(0 when there are none), `totalWorkSessions` the count of `"work"`
sessions, `totalBreakSessions` the count of break sessions, and — since
every stored row satisfies the `session_type` CHECK constraint — work
and break counts partition the total. -/
theorem getStatistics_totals (db : DB) (now : Timestamp)
    (hvalid : ∀ s ∈ db.sessions, validSessionType s.sessionType = true) :
    (getStatistics db now).totalSessions = (db.sessions.length : Int)
      ∧ (getStatistics db now).totalMinutes
        = (db.sessions.map (fun s => s.durationMinutes)).sum
      ∧ (getStatistics db now).totalWorkSessions
        = ((db.sessions.filter (fun s => s.sessionType = "work")).length : Int)
      ∧ (getStatistics db now).totalBreakSessions
        = ((db.sessions.filter (fun s => isBreakType s.sessionType)).length : Int)
      ∧ (getStatistics db now).totalWorkSessions + (getStatistics db now).totalBreakSessions
        = (getStatistics db now).totalSessions := by
  refine ⟨rfl, rfl, rfl, rfl, ?_⟩
  have hsplit : db.sessions.length
      = (db.sessions.filter (fun s => decide (s.sessionType = "work"))).length
        + (db.sessions.filter (fun s => !decide (s.sessionType = "work"))).length :=
    List.length_eq_length_filter_add _
  have hbreak : db.sessions.filter (fun s => !decide (s.sessionType = "work"))
      = db.sessions.filter (fun s => isBreakType s.sessionType) := by
    apply List.filter_congr
    intro s hs
    have hv := hvalid s hs
    simp only [validSessionType, Bool.or_eq_true, decide_eq_true_eq] at hv
    rcases hv with (h | h) | h <;> rw [h] <;> rfl
  show ((db.sessions.filter (fun s => decide (s.sessionType = "work"))).length : Int)
      + ((db.sessions.filter (fun s => isBreakType s.sessionType)).length : Int)
      = (db.sessions.length : Int)
  rw [← hbreak]
  exact_mod_cast hsplit.symm

/-- C6 (witness): a four-session history with two work sessions and two
breaks has matching totals. -/
theorem getStatistics_totals_witness :
    (∀ s ∈ exDbMixed.sessions, validSessionType s.sessionType = true)
      ∧ (getStatistics exDbMixed exNow).totalWorkSessions
          + (getStatistics exDbMixed exNow).totalBreakSessions
        = (getStatistics exDbMixed exNow).totalSessions
      ∧ (getStatistics exDbMixed exNow).totalMinutes
        = (exDbMixed.sessions.map (fun s => s.durationMinutes)).sum :=
  ⟨by decide, (getStatistics_totals exDbMixed exNow (by decide)).2.2.2.2,
   (getStatistics_totals exDbMixed exNow (by decide)).2.1⟩

/-- C5: `averageSessionsPerDay` equals the spec's description — the mean
of per-calendar-day session counts over only the days carrying at least
one session in the trailing 30-day window, rounded half-up to one
decimal place, and 0 when no session falls in the window; in particular
three sessions on one day and one on another (and nothing else in the
window) yield 2.0. -/
theorem getStatistics_average_spec (db : DB) (now : Timestamp) :
    (getStatistics db now).averageSessionsPerDay = specAverageSessionsPerDay db now
      ∧ (getStatistics exDbAvg exNow).averageSessionsPerDay = 2 := by
  constructor
  case right =>
    show (jsRound (avgDailyCount exDbAvg exNow * 10) : ℚ) / 10 = 2
    have hw : windowDays exDbAvg exNow = [95, 90] := by decide
    have hd : dailyCounts exDbAvg exNow = [3, 1] := by decide
    rw [avgDailyCount, hw, hd]
    norm_num [jsRound]
  show (jsRound (avgDailyCount db now * 10) : ℚ) / 10 = specAverageSessionsPerDay db now
  by_cases h : db.sessions.filter (window30 now) = []
  · have hdays : windowDays db now = [] := by
      simp [windowDays, h]
    rw [specAverageSessionsPerDay, if_pos h, avgDailyCount, if_pos (by rw [hdays]; rfl)]
    norm_num [jsRound]
  · have hdays : windowDays db now ≠ [] := by
      simp [windowDays, h, List.dedup_eq_nil]
    have hlen : (windowDays db now).length ≠ 0 := by
      simpa [List.length_eq_zero] using hdays
    rw [specAverageSessionsPerDay, if_neg h, avgDailyCount, if_neg hlen,
      specRoundHalfUpTo1, jsRound]
    have hsum : ((dailyCounts db now).sum : ℚ)
        = ((windowDays db now).map (fun d =>
            (((db.sessions.filter (window30 now)).filter
                (fun s => dayOf s.completedAt = d)).length : ℚ))).sum := by
      rw [dailyCounts, Int.cast_list_sum, List.map_map]
      congr 1
    rw [hsum]

theorem streakFrom_nil (today : Int) (i : Nat) : streakFrom today i [] = 0 := rfl

theorem streakFrom_cons (today : Int) (i : Nat) (d : Int) (ds : List Int) :
    streakFrom today i (d :: ds)
      = if d = today - (i : Int) then streakFrom today (i + 1) ds + 1 else 0 := rfl

theorem mem_insertDescDistinct {a d : Int} {l : List Int} :
    a ∈ insertDescDistinct d l ↔ a = d ∨ a ∈ l := by
  induction l with
  | nil => simp [insertDescDistinct]
  | cons x xs ih =>
    by_cases h1 : x < d
    · simp only [insertDescDistinct, if_pos h1, List.mem_cons]
    · by_cases h2 : x = d
      · subst h2
        have hstep : insertDescDistinct x (x :: xs) = x :: xs := by
          unfold insertDescDistinct
          rw [if_neg h1, if_pos rfl]
        rw [hstep, List.mem_cons]
        tauto
      · simp only [insertDescDistinct, if_neg h1, if_neg h2, List.mem_cons, ih]
        tauto

theorem mem_sortedDistinctDesc {a : Int} {l : List Int} :
    a ∈ sortedDistinctDesc l ↔ a ∈ l := by
  induction l with
  | nil => simp [sortedDistinctDesc]
  | cons x xs ih =>
    show a ∈ insertDescDistinct x (sortedDistinctDesc xs) ↔ a ∈ x :: xs
    rw [mem_insertDescDistinct, ih, List.mem_cons]

theorem pairwise_gt_insertDescDistinct {d : Int} {l : List Int}
    (h : l.Pairwise (fun a b => b < a)) :
    (insertDescDistinct d l).Pairwise (fun a b => b < a) := by
  induction l with
  | nil => simp [insertDescDistinct]
  | cons x xs ih =>
    obtain ⟨hx, hxs⟩ := List.pairwise_cons.mp h
    by_cases h1 : x < d
    · simp only [insertDescDistinct, if_pos h1]
      refine List.pairwise_cons.mpr ⟨?_, h⟩
      intro y hy
      rcases List.mem_cons.mp hy with rfl | hy'
      · exact h1
      · exact lt_trans (hx y hy') h1
    · by_cases h2 : x = d
      · simpa only [insertDescDistinct, if_neg h1, if_pos h2] using h
      · simp only [insertDescDistinct, if_neg h1, if_neg h2]
        refine List.pairwise_cons.mpr ⟨?_, ih hxs⟩
        intro y hy
        rcases mem_insertDescDistinct.mp hy with rfl | hy'
        · omega
        · exact hx y hy'

theorem pairwise_gt_sortedDistinctDesc (l : List Int) :
    (sortedDistinctDesc l).Pairwise (fun a b => b < a) := by
  induction l with
  | nil => simp [sortedDistinctDesc]
  | cons x xs ih => exact pairwise_gt_insertDescDistinct ih

theorem pairwise_head_extract {l : List Int} {d : Int}
    (hp : l.Pairwise (fun a b => b < a)) (hd : d ∈ l) (hub : ∀ x ∈ l, x ≤ d) :
    ∃ t, l = d :: t ∧ t.Pairwise (fun a b => b < a) ∧ ∀ x ∈ t, x < d ∧ x ∈ l := by
  cases l with
  | nil => cases hd
  | cons x xs =>
    obtain ⟨hx, hxs⟩ := List.pairwise_cons.mp hp
    have hxd : x = d := by
      rcases List.mem_cons.mp hd with rfl | hmem
      · rfl
      · have h1 := hx d hmem
        have h2 := hub x (List.mem_cons_self x xs)
        omega
    subst hxd
    exact ⟨xs, rfl, hxs, fun y hy => ⟨hx y hy, List.mem_cons_of_mem _ hy⟩⟩

theorem mem_streakDayList {db : DB} {now : Timestamp} {x : Int} :
    x ∈ streakDayList db now
      ↔ ∃ s ∈ db.sessions, window365 now s = true ∧ dayOf s.completedAt = x := by
  rw [streakDayList, mem_sortedDistinctDesc, List.mem_map]
  constructor
  · rintro ⟨s, hs, rfl⟩
    obtain ⟨hmem, hw⟩ := List.mem_filter.mp hs
    exact ⟨s, hmem, hw, rfl⟩
  · rintro ⟨s, hmem, hw, rfl⟩
    exact ⟨s, List.mem_filter.mpr ⟨hmem, hw⟩, rfl⟩

/-- C4: the streak computation walks backward from the day containing
`now`.  On any reachable state (no session completed after `now`'s day):
if there are sessions on today, today−1 and today−2 but none on
today−3, `streakDays` is 3; and whenever today itself has no session,
`streakDays` is 0 no matter what earlier days hold. -/
theorem getStatistics_streak_spec (db : DB) (now : Timestamp)
    (hpast : ∀ s ∈ db.sessions, dayOf s.completedAt ≤ dayOf now) :
    ((hasSessionOnDay db now 0 ∧ hasSessionOnDay db now 1 ∧ hasSessionOnDay db now 2
        ∧ ¬ hasSessionOnDay db now 3) →
      (getStatistics db now).streakDays = 3)
      ∧ (¬ hasSessionOnDay db now 0 → (getStatistics db now).streakDays = 0) := by
  have hshow : (getStatistics db now).streakDays
      = streakFrom (dayOf now) 0 (streakDayList db now) := rfl
  have hub : ∀ x ∈ streakDayList db now, x ≤ dayOf now := by
    intro x hx
    obtain ⟨s, hs, -, rfl⟩ := mem_streakDayList.mp hx
    exact hpast s hs
  have hp : (streakDayList db now).Pairwise (fun a b => b < a) := by
    rw [streakDayList]; exact pairwise_gt_sortedDistinctDesc _
  have hasIff : ∀ k : Nat,
      hasSessionOnDay db now k ↔ (dayOf now - (k : Int)) ∈ streakDayList db now :=
    fun k => mem_streakDayList.symm
  constructor
  · rintro ⟨h0, h1, h2, h3⟩
    rw [hshow]
    have m0 : dayOf now ∈ streakDayList db now := by
      have := (hasIff 0).mp h0
      simpa using this
    have m1 : dayOf now - 1 ∈ streakDayList db now := by
      have := (hasIff 1).mp h1
      simpa using this
    have m2 : dayOf now - 2 ∈ streakDayList db now := by
      have := (hasIff 2).mp h2
      simpa using this
    have m3 : dayOf now - 3 ∉ streakDayList db now := by
      intro hc
      exact h3 ((hasIff 3).mpr (by simpa using hc))
    obtain ⟨t1, hL1, hp1, hprop1⟩ := pairwise_head_extract hp m0 hub
    have m1' : dayOf now - 1 ∈ t1 := by
      have hmem := m1
      rw [hL1] at hmem
      rcases List.mem_cons.mp hmem with he | hm
      · omega
      · exact hm
    have hub1 : ∀ x ∈ t1, x ≤ dayOf now - 1 := by
      intro x hx
      have := (hprop1 x hx).1
      omega
    obtain ⟨t2, hL2, hp2, hprop2⟩ := pairwise_head_extract hp1 m1' hub1
    have m2' : dayOf now - 2 ∈ t2 := by
      have hmem : dayOf now - 2 ∈ t1 := by
        have hmem0 := m2
        rw [hL1] at hmem0
        rcases List.mem_cons.mp hmem0 with he | hm
        · omega
        · exact hm
      rw [hL2] at hmem
      rcases List.mem_cons.mp hmem with he | hm
      · omega
      · exact hm
    have hub2 : ∀ x ∈ t2, x ≤ dayOf now - 2 := by
      intro x hx
      have := (hprop2 x hx).1
      omega
    obtain ⟨t3, hL3, hp3, hprop3⟩ := pairwise_head_extract hp2 m2' hub2
    have hm3' : dayOf now - 3 ∉ t3 := by
      intro hc
      exact m3 ((hprop1 _ ((hprop2 _ ((hprop3 _ hc).2)).2)).2)
    have hzero : ∀ l : List Int, (∀ x ∈ l, x ≤ dayOf now - 3) →
        (dayOf now - 3) ∉ l → streakFrom (dayOf now) 3 l = 0 := by
      intro l hub' hnot
      cases l with
      | nil => rfl
      | cons x xs =>
        rw [streakFrom_cons, if_neg]
        intro he
        apply hnot
        have hx3 : x = dayOf now - 3 := by push_cast at he; omega
        rw [← hx3]
        exact List.mem_cons_self x xs
    rw [hL1, hL2, hL3]
    rw [streakFrom_cons, if_pos (by push_cast; ring)]
    rw [streakFrom_cons, if_pos (by push_cast; ring)]
    rw [streakFrom_cons, if_pos (by push_cast; ring)]
    rw [hzero t3 (fun x hx => by have := (hprop3 x hx).1; omega) hm3']
  · intro h0
    rw [hshow]
    cases hL : streakDayList db now with
    | nil => rw [streakFrom_nil]
    | cons x xs =>
      rw [streakFrom_cons, if_neg]
      intro he
      apply h0
      refine (hasIff 0).mpr ?_
      have hx : x ∈ streakDayList db now := by
        rw [hL]; exact List.mem_cons_self x xs
      have hxT : dayOf now - ((0 : Nat) : Int) = x := by push_cast at he ⊢; omega
      rw [hxT]
      exact hx

/-- C4 (witness): with sessions on days 100 (today), 99, 98 and 96 the
streak is 3; with sessions only on days 99 and 98 the streak is 0. -/
theorem getStatistics_streak_spec_witness :
    (∀ s ∈ exDbStreak.sessions, dayOf s.completedAt ≤ dayOf exNow)
      ∧ (getStatistics exDbStreak exNow).streakDays = 3
      ∧ (getStatistics exDbNoToday exNow).streakDays = 0 :=
  ⟨by decide,
   (getStatistics_streak_spec exDbStreak exNow (by decide)).1
     ⟨by decide, by decide, by decide, by decide⟩,
   (getStatistics_streak_spec exDbNoToday exNow (by decide)).2 (by decide)⟩

/-- C9: `getSettings` on a state with no stored settings row returns the
defaults `(25, 5, 15, 4)` and leaves behind exactly one settings row
holding those defaults. -/
theorem getSettings_creates_defaults (db : DB) (now : Timestamp)
    (h : db.userSettings = []) :
    (getSettings db now).2 = .ok (defaultSettingsRow db.nextSettingsId now)
      ∧ (getSettings db now).1.userSettings = [defaultSettingsRow db.nextSettingsId now]
      ∧ (defaultSettingsRow db.nextSettingsId now).workDuration = 25
      ∧ (defaultSettingsRow db.nextSettingsId now).shortBreakDuration = 5
      ∧ (defaultSettingsRow db.nextSettingsId now).longBreakDuration = 15
      ∧ (defaultSettingsRow db.nextSettingsId now).sessionsUntilLongBreak = 4 := by
  have hfirst : firstSettings db = none := by
    simp [firstSettings, h]
  refine ⟨?_, ?_, rfl, rfl, rfl, rfl⟩ <;>
    simp [getSettings, hfirst, h]

/-- C9 (witness): requesting settings on the empty store yields the
default tuple and a single stored row. -/
theorem getSettings_creates_defaults_witness :
    exDbEmpty.userSettings = []
      ∧ (getSettings exDbEmpty 0).2 = .ok (defaultSettingsRow 1 0)
      ∧ (getSettings exDbEmpty 0).1.userSettings = [defaultSettingsRow 1 0]
      ∧ (defaultSettingsRow 1 0).workDuration = 25 :=
  ⟨rfl, (getSettings_creates_defaults exDbEmpty 0 rfl).1,
   (getSettings_creates_defaults exDbEmpty 0 rfl).2.1,
   (getSettings_creates_defaults exDbEmpty 0 rfl).2.2.1⟩

/-- C10: an empty `PUT /settings` patch is a pure read: the whole
database — in particular the stored settings row and its `updated_at` —
is returned unchanged and the current settings row is the response;
whereas `updateTask` and `updateNote` reject an empty patch with
`invalidArgument` (and also change nothing). -/
theorem updateSettings_empty_patch_pure_read (db : DB) (now : Timestamp) :
    (updateSettings db now emptySettingsPatch).1 = db
      ∧ (∀ r, firstSettings db = some r →
          (updateSettings db now emptySettingsPatch).2 = .ok r)
      ∧ (∀ i, updateTask db now ⟨i, none, none, none, none⟩
          = (db, .error (.invalidArgument "No fields to update")))
      ∧ (∀ i, updateNote db now ⟨i, none, none⟩
          = (db, .error (.invalidArgument "No fields to update"))) := by
  refine ⟨?_, ?_, ?_, ?_⟩
  · cases h : firstSettings db <;> simp [updateSettings, emptySettingsPatch,
      UpdateSettingsRequest.isEmpty, h]
  · intro r h
    simp [updateSettings, emptySettingsPatch, UpdateSettingsRequest.isEmpty, h]
  · intro i
    simp [updateTask, UpdateTaskRequest.isEmpty]
  · intro i
    simp [updateNote, UpdateNoteRequest.isEmpty]

/-- C10 (witness): on a store holding one settings row, the empty patch
changes nothing and returns that row, while the empty task patch is
rejected. -/
theorem updateSettings_empty_patch_pure_read_witness :
    (updateSettings exDbWithSettings 42 emptySettingsPatch).1 = exDbWithSettings
      ∧ (updateSettings exDbWithSettings 42 emptySettingsPatch).2 = .ok exSettingsRow
      ∧ updateTask exDbWithSettings 42 ⟨1, none, none, none, none⟩
        = (exDbWithSettings, .error (.invalidArgument "No fields to update")) :=
  ⟨(updateSettings_empty_patch_pure_read exDbWithSettings 42).1,
   (updateSettings_empty_patch_pure_read exDbWithSettings 42).2.1 exSettingsRow rfl,
   (updateSettings_empty_patch_pure_read exDbWithSettings 42).2.2.1 1⟩

end Pomodoro
